import Mathlib

/-!
Shallow embedding of the `homematicip_local` entity-adapter layer
(custom_components/homematicip_local): the restore/display logic of the
per-platform entity classes, the MQTT consumer shim, and the device-removal
cascade.  Library-side data points are modelled by their observable fields
(`is_valid`, `value`, ...); Home Assistant restored states by a record of the
fields the adapter reads.
-/

namespace HmipLocal

/-- Values carried by a generic data point (Python is dynamically typed;
sensor values are numbers, strings or booleans). -/
inductive HmValue
  | num (n : Int)
  | str (s : String)
  | bool (b : Bool)
  deriving DecidableEq, Repr

/-- hahomematic `ParameterType` (hmtype of a generic data point). -/
inductive ParameterType
  | action
  | bool
  | enum
  | float
  | integer
  | string
  deriving DecidableEq, Repr

/-- Home Assistant framework state constants (homeassistant.const). -/
def STATE_ON : String := "on"

/-- Home Assistant framework state constant for a closed cover. -/
def STATE_CLOSED : String := "closed"

/-- Home Assistant framework state constant for an unknown state. -/
def STATE_UNKNOWN : String := "unknown"

/-- Home Assistant framework state constant for an unavailable entity. -/
def STATE_UNAVAILABLE : String := "unavailable"

/-- The fields of a Home Assistant restored `State` that the adapter reads:
the state string and the two cover position attributes.  `state` is kept
optional because `is_restored` in generic_entity.py defensively checks
`self._restored_state.state is not None`. -/
structure RestoredState where
  state : Option String
  attr_current_position : Option Int
  attr_current_tilt_position : Option Int
  deriving DecidableEq, Repr

/-- HaHomematicGenericRestoreEntity.is_restored (generic_entity.py):
`not self._data_point.is_valid and self._restored_state is not None and
self._restored_state.state is not None`. -/
def is_restored (dp_is_valid : Bool) (restored : Option RestoredState) : Bool :=
  match restored with
  | none => false
  | some r => !dp_is_valid && r.state.isSome

/-- Python `x not in (STATE_UNKNOWN, STATE_UNAVAILABLE)` applied to an optional
state string (`None not in (...)` is `True` in Python). -/
def state_not_in_unknown_unavailable : Option String → Bool
  | none => true
  | some s => s != STATE_UNKNOWN && s != STATE_UNAVAILABLE

/-- Python `restored_state == k` where `restored_state` is an optional string
(`None == k` is `False`). -/
def opt_str_eq : Option String → String → Bool
  | none, _ => false
  | some s, k => s == k

/-! ### Sensor (sensor.py, HaHomematicSensor) -/

/-- The observable fields of a `DpSensor` data point read by
`HaHomematicSensor.native_value`. -/
structure SensorDataPoint where
  is_valid : Bool
  value : Option HmValue
  hmtype : ParameterType
  deriving DecidableEq, Repr

/-- The sensor entity: wrapped data point plus the fields set in
`HaHomematicSensor.__init__` / `async_added_to_hass`. -/
structure SensorEntity where
  dp : SensorDataPoint
  multiplier : Int
  translation_key : Option String
  restored_native_value : Option HmValue
  deriving DecidableEq, Repr

/-- HaHomematicSensor.is_restored (sensor.py):
`not self._data_point.is_valid and self._restored_native_value is not None`. -/
def sensor_is_restored (e : SensorEntity) : Bool :=
  !e.dp.is_valid && e.restored_native_value.isSome

/-- Python `value * multiplier` under dynamic typing (int/float multiply;
`str * int` repeats the string; `bool * int` coerces the bool to 0/1). -/
def pyMul (v : HmValue) (m : Int) : HmValue :=
  match v with
  | .num n => .num (n * m)
  | .str s => .str (String.join (List.replicate m.toNat s))
  | .bool b => .num ((if b then 1 else 0) * m)

/-- Python `value.lower()`; only strings reach this call in the source
(guarded by `hmtype in (ParameterType.ENUM, ParameterType.STRING)`). -/
def pyLower (v : HmValue) : HmValue :=
  match v with
  | .str s => .str s.toLower
  | v => v

/-- HaHomematicSensor.native_value (sensor.py): when valid, multiply numeric
values by the multiplier (if it is not 1), lowercase enum/string values that
have a translation key, otherwise return the raw value; when invalid fall back
to the restored native value if `is_restored`, else None. -/
def sensor_native_value (e : SensorEntity) : Option HmValue :=
  if e.dp.is_valid then
    if e.dp.value.isSome
        && (e.dp.hmtype == .float || e.dp.hmtype == .integer)
        && e.multiplier != 1 then
      e.dp.value.map (fun v => pyMul v e.multiplier)
    else if e.dp.value.isSome
        && e.translation_key.isSome
        && (e.dp.hmtype == .enum || e.dp.hmtype == .string) then
      e.dp.value.map pyLower
    else
      e.dp.value
  else if sensor_is_restored e then
    e.restored_native_value
  else
    none

/-! ### Number (number.py, HaHomematicNumber) -/

/-- The observable fields of a `BaseDpNumber` data point read by
`HaHomematicNumber.native_value` (numeric values, modelled as integers). -/
structure NumberDataPoint where
  is_valid : Bool
  value : Option Int
  deriving DecidableEq, Repr

/-- The number entity: wrapped data point plus multiplier and restored value. -/
structure NumberEntity where
  dp : NumberDataPoint
  multiplier : Int
  restored_native_value : Option Int
  deriving DecidableEq, Repr

/-- HaHomematicNumber.is_restored (number.py). -/
def number_is_restored (e : NumberEntity) : Bool :=
  !e.dp.is_valid && e.restored_native_value.isSome

/-- HaHomematicNumber.native_value (number.py): when valid and the value is
not None, return `value * multiplier`; otherwise the restored value if
`is_restored`, else None. -/
def number_native_value (e : NumberEntity) : Option Int :=
  if e.dp.is_valid && e.dp.value.isSome then
    e.dp.value.map (fun n => n * e.multiplier)
  else if number_is_restored e then
    e.restored_native_value
  else
    none

/-! ### Switch (switch.py, HaHomematicSwitch) -/

/-- The observable fields of a switch data point read by
`HaHomematicSwitch.is_on` (the value is dynamically typed; `is_on` checks
`value is True`). -/
structure SwitchDataPoint where
  is_valid : Bool
  value : Option HmValue
  deriving DecidableEq, Repr

/-- HaHomematicSwitch.is_on (switch.py): when valid, `value is True`;
otherwise, if restored and the restored state is neither "unknown" nor
"unavailable", `restored_state == STATE_ON`; else None. -/
def switch_is_on (dp : SwitchDataPoint) (restored : Option RestoredState) :
    Option Bool :=
  if dp.is_valid then
    some (dp.value == some (.bool true))
  else if is_restored dp.is_valid restored
      && restored.isSome
      && state_not_in_unknown_unavailable (restored.bind RestoredState.state) then
    some (opt_str_eq (restored.bind RestoredState.state) STATE_ON)
  else
    none

/-! ### Binary sensor (binary_sensor.py, HaHomematicBinarySensor) -/

/-- The observable fields of a `DpBinarySensor` data point read by
`HaHomematicBinarySensor.is_on`, including the parameter default consulted by
the final fall-through. -/
structure BinarySensorDataPoint where
  is_valid : Bool
  value : Option Bool
  default : Bool
  deriving DecidableEq, Repr

/-- HaHomematicBinarySensor.is_on (binary_sensor.py): when valid, the raw
value; otherwise the restored comparison with STATE_ON when usable; otherwise
the data point default (not None). -/
def binary_sensor_is_on (dp : BinarySensorDataPoint)
    (restored : Option RestoredState) : Option Bool :=
  if dp.is_valid then
    dp.value
  else if is_restored dp.is_valid restored
      && restored.isSome
      && state_not_in_unknown_unavailable (restored.bind RestoredState.state) then
    some (opt_str_eq (restored.bind RestoredState.state) STATE_ON)
  else
    some dp.default

/-! ### Text (text.py, HaHomematicText) -/

/-- The observable fields of a `DpText` data point read by
`HaHomematicText.native_value`. -/
structure TextDataPoint where
  is_valid : Bool
  value : Option String
  deriving DecidableEq, Repr

/-- HaHomematicText.native_value (text.py). -/
def text_native_value (dp : TextDataPoint) (restored : Option RestoredState) :
    Option String :=
  if dp.is_valid then
    dp.value
  else if is_restored dp.is_valid restored
      && restored.isSome
      && state_not_in_unknown_unavailable (restored.bind RestoredState.state) then
    restored.bind RestoredState.state
  else
    none

/-! ### Lock (lock.py, HaHomematicLock) -/

/-- The observable fields of a `BaseCustomDpLock` data point read by
`HaHomematicLock.is_locked`. -/
structure LockDataPoint where
  is_valid : Bool
  is_locked : Option Bool
  deriving DecidableEq, Repr

/-- HaHomematicLock.is_locked (lock.py): `lockStateLocked` is the string value
of the external library constant `LockState.LOCKED` (the library is an opaque
collaborator, so the constant is a parameter of the model). -/
def lock_is_locked (lockStateLocked : String) (dp : LockDataPoint)
    (restored : Option RestoredState) : Option Bool :=
  if dp.is_valid then
    dp.is_locked
  else if is_restored dp.is_valid restored
      && restored.isSome
      && state_not_in_unknown_unavailable (restored.bind RestoredState.state) then
    some (opt_str_eq (restored.bind RestoredState.state) lockStateLocked)
  else
    none

/-! ### Cover (cover.py, HaHomematicBaseCover) -/

/-- The observable fields of a cover data point read by
`HaHomematicBaseCover.current_cover_position` / `is_closed`. -/
structure CoverDataPoint where
  is_valid : Bool
  current_position : Option Int
  is_closed : Option Bool
  deriving DecidableEq, Repr

/-- HaHomematicBaseCover.current_cover_position (cover.py): when valid, the
live position; when restored, `restored.attributes.get(ATTR_CURRENT_POSITION)`
(note: no unknown/unavailable check on this property); else None. -/
def cover_current_cover_position (dp : CoverDataPoint)
    (restored : Option RestoredState) : Option Int :=
  if dp.is_valid then
    dp.current_position
  else if is_restored dp.is_valid restored && restored.isSome then
    restored.bind RestoredState.attr_current_position
  else
    none

/-- HaHomematicBaseCover.is_closed (cover.py). -/
def cover_is_closed (dp : CoverDataPoint) (restored : Option RestoredState) :
    Option Bool :=
  if dp.is_valid then
    dp.is_closed
  else if is_restored dp.is_valid restored
      && restored.isSome
      && state_not_in_unknown_unavailable (restored.bind RestoredState.state) then
    some (opt_str_eq (restored.bind RestoredState.state) STATE_CLOSED)
  else
    none

/-! ### Select (select.py, HaHomematicSelect) -/

/-- The observable fields of a `DpSelect` data point read by
`HaHomematicSelect` (the enum value list and the current value). -/
structure SelectDataPoint where
  is_valid : Bool
  value : Option String
  values : Option (List String)
  deriving DecidableEq, Repr

/-- HaHomematicSelect.options (select.py): the lowercased library values
(the walrus guard `if options := self._data_point.values:` treats an empty
tuple as falsy). -/
def select_options (dp : SelectDataPoint) : List String :=
  match dp.values with
  | some vs => if vs.isEmpty then [] else vs.map String.toLower
  | none => []

/-- HaHomematicSelect.current_option (select.py). -/
def select_current_option (dp : SelectDataPoint)
    (restored : Option RestoredState) : Option String :=
  if dp.is_valid then
    dp.value.map String.toLower
  else if is_restored dp.is_valid restored
      && restored.isSome
      && state_not_in_unknown_unavailable (restored.bind RestoredState.state) then
    restored.bind RestoredState.state
  else
    none

/-- HaHomematicSelect.async_select_option (select.py): the string forwarded to
`self._data_point.send_value` is `option.upper()`. -/
def select_option_sent (option : String) : String :=
  option.toUpper

/-! ### MQTT consumer (mqtt.py, MQTTConsumer) -/

/-- Parsed JSON values, as produced by `json_loads` on an MQTT payload. -/
inductive Json
  | null
  | bool (b : Bool)
  | num (n : Int)
  | str (s : String)
  | arr (xs : List Json)
  | obj (kvs : List (String × Json))

/-- Python `dict.get` on the parsed JSON object. -/
def jsonGet (kvs : List (String × Json)) (k : String) : Option Json :=
  match kvs with
  | [] => none
  | (k2, v) :: rest => if k2 == k then some v else jsonGet rest k

/-- Exceptions that can escape `MQTTConsumer._on_mqtt_msg_receive`. -/
inductive HandlerError
  | jsonDecodeError
  | attributeError
  deriving DecidableEq, Repr

/-- One call of `central.data_point_path_event(state_path=..., value=...)`
forwarded to a registered control unit. -/
structure PathEvent where
  central : String
  state_path : String
  value : Json

/-- MQTTConsumer._on_mqtt_msg_receive (mqtt.py): `json_loads(msg.payload)`
(`none` models an unparseable payload, on which `json_loads` raises), then
`payload_dict.get("v")` (raising AttributeError when the parsed JSON is not an
object), and if the field is present and not null, one
`data_point_path_event(state_path=msg.topic, value=payload_value)` per
registered central. -/
def on_mqtt_msg_receive (centrals : List String) (topic : String)
    (payload : Option Json) : Except HandlerError (List PathEvent) :=
  match payload with
  | none => .error .jsonDecodeError
  | some (.obj kvs) =>
    match jsonGet kvs "v" with
    | none => .ok []
    | some .null => .ok []
    | some v => .ok (centrals.map (fun c => ⟨c, topic, v⟩))
  | some _ => .error .attributeError

/-- Actions issued against the Home Assistant MQTT subscription helpers. -/
inductive MqttAction
  | subscribeTopics
  | unsubscribeTopics
  deriving DecidableEq, Repr

/-- MQTTConsumer state: the registered central names (`_centrals` dict keys)
and `_sub_state`.  `sub_state = false` models Python `None`; `true` models the
non-empty subscription dict returned by `async_prepare_subscribe_topics`
(always truthy, since `_topics` contains the "events" entry). -/
structure MQTTConsumer where
  centrals : List String
  sub_state : Bool
  deriving DecidableEq, Repr

/-- MQTTConsumer._subscribe (mqtt.py): no-op when mqtt is not configured;
when `_sub_state is None`, populate it and call `async_subscribe_topics`
exactly once. -/
def mqtt_subscribe_topics (mqttConfigured : Bool) (c : MQTTConsumer) :
    MQTTConsumer × List MqttAction :=
  if !mqttConfigured then (c, [])
  else if c.sub_state == false then
    ({ c with sub_state := true }, [.subscribeTopics])
  else (c, [])

/-- MQTTConsumer._unsubscribe (mqtt.py): no-op when mqtt is not configured;
when `_sub_state` is truthy, call `async_unsubscribe_topics`.  The source
discards the return value and never resets `_sub_state`, so the state is left
unchanged. -/
def mqtt_unsubscribe_topics (mqttConfigured : Bool) (c : MQTTConsumer) :
    MQTTConsumer × List MqttAction :=
  if !mqttConfigured then (c, [])
  else if c.sub_state then (c, [.unsubscribeTopics])
  else (c, [])

/-- MQTTConsumer.subscribe (mqtt.py): register a central; when its name is not
yet registered, run `_subscribe` and add it. -/
def consumer_subscribe (mqttConfigured : Bool) (c : MQTTConsumer)
    (name : String) : MQTTConsumer × List MqttAction :=
  if c.centrals.contains name then (c, [])
  else
    let res := mqtt_subscribe_topics mqttConfigured c
    ({ res.1 with centrals := res.1.centrals ++ [name] }, res.2)

/-- MQTTConsumer.unsubscribe (mqtt.py): drop the central when registered; when
no centrals remain, run `_unsubscribe`. -/
def consumer_unsubscribe (mqttConfigured : Bool) (c : MQTTConsumer)
    (name : String) : MQTTConsumer × List MqttAction :=
  let c1 :=
    if c.centrals.contains name then
      { c with centrals := c.centrals.erase name }
    else c
  if c1.centrals.isEmpty then mqtt_unsubscribe_topics mqttConfigured c1
  else (c1, [])

/-- An external call on the MQTT consumer. -/
inductive ConsumerOp
  | sub (name : String)
  | unsub (name : String)
  deriving DecidableEq, Repr

/-- One consumer call. -/
def consumer_step (mqttConfigured : Bool) (c : MQTTConsumer) :
    ConsumerOp → MQTTConsumer × List MqttAction
  | .sub name => consumer_subscribe mqttConfigured c name
  | .unsub name => consumer_unsubscribe mqttConfigured c name

/-- Run a sequence of consumer calls, accumulating the issued MQTT actions. -/
def consumer_run (mqttConfigured : Bool) (c : MQTTConsumer)
    (ops : List ConsumerOp) : MQTTConsumer × List MqttAction :=
  match ops with
  | [] => (c, [])
  | op :: rest =>
    let res := consumer_step mqttConfigured c op
    let res2 := consumer_run mqttConfigured res.1 rest
    (res2.1, res.2 ++ res2.2)

/-- The initial consumer state (`__init__`): no centrals, `_sub_state = None`. -/
def consumer_init : MQTTConsumer := ⟨[], false⟩

/-! ### Device removal cascade (generic_entity.py / update.py,
`_async_device_removed`) -/

/-- The fields of an entity registry entry read by the removal callback. -/
structure RegistryEntry where
  device_id : Option String
  deriving DecidableEq, Repr

/-- A reporting entity: its identity and its (optional) registry entry. -/
structure EntityRef where
  name : String
  registry_entry : Option RegistryEntry
  deriving DecidableEq, Repr

/-- Error raised by the device registry when removing an absent device
(`async_remove_device` on a missing id). -/
inductive RegistryError
  | deviceNotFound
  deriving DecidableEq, Repr

/-- The state touched by the removal cascade: the device registry contents,
the entities force-removed so far, and the `async_remove_device` calls made. -/
structure RemovalState where
  registry_devices : List String
  force_removed : List String
  remove_device_calls : List String
  deriving DecidableEq, Repr

/-- `device_registry.async_remove_device`: deletes the device, raising when it
is absent. -/
def registry_remove_device (st : RemovalState) (did : String) :
    Except RegistryError RemovalState :=
  if st.registry_devices.contains did then
    .ok { st with
      registry_devices := st.registry_devices.erase did,
      remove_device_calls := st.remove_device_calls ++ [did] }
  else .error .deviceNotFound

/-- `_async_device_removed` (generic_entity.py, identically update.py):
force-remove the reporting entity, then, when it has a registry entry with a
truthy device id that is still present in the device registry, remove the
device.  The `device_id in device_registry.devices` guard makes absence a
no-op rather than an error. -/
def async_device_removed (st : RemovalState) (e : EntityRef) :
    Except RegistryError RemovalState :=
  let st1 := { st with force_removed := st.force_removed ++ [e.name] }
  match e.registry_entry with
  | none => .ok st1
  | some re =>
    match re.device_id with
    | none => .ok st1
    | some did =>
      if did == "" then .ok st1
      else if st1.registry_devices.contains did then
        registry_remove_device st1 did
      else .ok st1

/-- Sequential processing of removal reports from several entities (the host
framework runs the callbacks on a single cooperative event loop). -/
def process_device_removed (st : RemovalState) (es : List EntityRef) :
    Except RegistryError RemovalState :=
  match es with
  | [] => .ok st
  | e :: rest =>
    match async_device_removed st e with
    | .ok st1 => process_device_removed st1 rest
    | .error err => .error err

/-! ### Cover combined-position service (cover.py) -/

/-- Awaited calls issued by `async_set_cover_combined_position`. -/
inductive CoverCall
  | set_position (position : Int) (tilt_position : Option Int)
      (use_collector : Bool)
  | collector_send_data (wait_for_callback : Option Int)
  deriving DecidableEq, Repr

/-- HaHomematicBaseCover.async_set_cover_combined_position (cover.py): build a
`CallParameterCollector`, await one `set_position` carrying both values and
the collector, then await `collector.send_data(wait_for_callback=...)`. -/
def async_set_cover_combined_position (position : Int)
    (tilt_position : Option Int) (wait_for_callback : Option Int) :
    List CoverCall :=
  [.set_position position tilt_position true,
   .collector_send_data wait_for_callback]

/-- The service schema registered for SET_COVER_COMBINED_POSITION in
`async_setup_entry` (cover.py): position required in 0..100, tilt_position
optional in 0..100, wait_for_callback an optional positive int. -/
def combined_position_schema_ok (position : Int) (tilt_position : Option Int)
    (wait_for_callback : Option Int) : Bool :=
  (0 ≤ position && position ≤ 100)
    && (match tilt_position with
        | none => true
        | some t => 0 ≤ t && t ≤ 100)
    && (match wait_for_callback with
        | none => true
        | some w => 0 ≤ w)

/-- Is a cover call a `set_position` call? -/
def is_set_position_call : CoverCall → Bool
  | .set_position _ _ _ => true
  | .collector_send_data _ => false

/-! ## Helper lemmas on ASCII casing (used for the select round-trip) -/

/-- Uppercasing then lowercasing an ASCII upper-case code point is the
identity. -/
theorem ofNat_upper_lower (m : Nat) (ha : 65 ≤ m) (hb : m ≤ 90) :
    (Char.ofNat (m + 32)).toUpper.toLower = Char.ofNat (m + 32) := by
  interval_cases m <;> decide

/-- Lowercasing the uppercased code point of an ASCII lower-case character
gives the character back. -/
theorem ofNat_sub_lower (m : Nat) (ha : 97 ≤ m) (hb : m ≤ 122) (c : Char)
    (hc : c.toNat = m) : (Char.ofNat (m - 32)).toLower = c := by
  rw [← Char.ofNat_toNat c, hc]
  interval_cases m <;> decide

/-- Char-level round trip: `toLower (toUpper (toLower c)) = toLower c`. -/
theorem char_toLower_toUpper_toLower (c : Char) :
    c.toLower.toUpper.toLower = c.toLower := by
  by_cases h1 : 65 ≤ c.toNat ∧ c.toNat ≤ 90
  · have hl : c.toLower = Char.ofNat (c.toNat + 32) := by
      unfold Char.toLower
      rw [if_pos]
      exact ⟨h1.1, h1.2⟩
    rw [hl]
    exact ofNat_upper_lower _ h1.1 h1.2
  · have hl : c.toLower = c := by
      unfold Char.toLower
      rw [if_neg]
      intro hcon
      exact h1 ⟨hcon.1, hcon.2⟩
    rw [hl]
    by_cases h2 : 97 ≤ c.toNat ∧ c.toNat ≤ 122
    · have hu : c.toUpper = Char.ofNat (c.toNat - 32) := by
        unfold Char.toUpper
        rw [if_pos]
        exact ⟨h2.1, h2.2⟩
      rw [hu]
      exact ofNat_sub_lower _ h2.1 h2.2 c rfl
    · have hu : c.toUpper = c := by
        unfold Char.toUpper
        rw [if_neg]
        intro hcon
        exact h2 ⟨hcon.1, hcon.2⟩
      rw [hu, hl]

/-- String-level round trip: `toLower (toUpper (toLower s)) = toLower s`. -/
theorem string_toLower_toUpper_toLower (s : String) :
    s.toLower.toUpper.toLower = s.toLower := by
  have hf : Char.toLower ∘ Char.toUpper ∘ Char.toLower = Char.toLower :=
    funext fun c => by simpa [Function.comp] using char_toLower_toUpper_toLower c
  simp [String.toLower, String.toUpper, String.map_eq, List.map_map]
  rw [hf]

/-! ## Claims -/

/-- C1: for every restore entity instance, the displayed state prefers the
live data point value whenever the data point is valid, falls back to the
restored state only while the data point is invalid, and once the data point
has become valid at least once (validity is monotone along a trace: the
library never invalidates a value it has received), the restored state is
never consulted again.  `dpTrace` is the data point observed over time;
`r` is the restored state captured at setup; the last conjunct also covers the
sensor/number variant of `is_restored`. -/
theorem C1_restore_only_while_invalid (dpTrace : Nat → SwitchDataPoint)
    (r : Option RestoredState)
    (hmono : ∀ t, (dpTrace t).is_valid = true → (dpTrace (t + 1)).is_valid = true) :
    (∀ t, (dpTrace t).is_valid = true →
        switch_is_on (dpTrace t) r = some ((dpTrace t).value == some (.bool true)))
    ∧ (∀ t, is_restored (dpTrace t).is_valid r = true → (dpTrace t).is_valid = false)
    ∧ (∀ t u, t ≤ u → (dpTrace t).is_valid = true →
        is_restored (dpTrace u).is_valid r = false
        ∧ ∀ e : SensorEntity, e.dp.is_valid = (dpTrace u).is_valid →
            sensor_is_restored e = false) := by
  have hval : ∀ t u, t ≤ u → (dpTrace t).is_valid = true →
      (dpTrace u).is_valid = true := by
    intro t u h hv
    induction u, h using Nat.le_induction with
    | base => exact hv
    | succ n hn ih => exact hmono n ih
  refine ⟨?_, ?_, ?_⟩
  · intro t hv
    simp [switch_is_on, hv]
  · intro t hr
    cases hh : r with
    | none => rw [hh] at hr; simp [is_restored] at hr
    | some rs =>
        rw [hh] at hr
        simp [is_restored] at hr
        exact hr.1
  · intro t u htu hv
    have hu := hval t u htu hv
    constructor
    · cases r with
      | none => simp [is_restored]
      | some rs => simp [is_restored, hu]
    · intro e he
      rw [sensor_is_restored, he, hu]
      simp

/-- C1 witness: a concrete valid trace with restored state present. -/
theorem C1_witness :
    switch_is_on ⟨true, some (.bool false)⟩ (some ⟨some "on", none, none⟩) = some false
    ∧ is_restored true (some ⟨some "on", none, none⟩) = false := by
  have h := C1_restore_only_while_invalid (fun _ => ⟨true, some (.bool false)⟩)
    (some ⟨some "on", none, none⟩) (fun _ hv => hv)
  refine ⟨?_, ?_⟩
  · have h1 := h.1 0 rfl
    simpa using h1
  · exact (h.2.2 0 0 (Nat.le_refl 0) rfl).1

/-- C2: when the wrapped data point is valid, the exposed state equals the
live value after the documented transform: numeric sensor and number values
are multiplied by the entity multiplier, enum/string sensor values with a
translation key are lowercased, and the switch exposes the boolean value. -/
theorem C2_valid_state_transforms :
    (∀ (e : SensorEntity) (n : Int),
        e.dp.is_valid = true → e.dp.value = some (.num n) →
        (e.dp.hmtype = .float ∨ e.dp.hmtype = .integer) →
        sensor_native_value e = some (.num (n * e.multiplier)))
    ∧ (∀ (e : SensorEntity) (s : String),
        e.dp.is_valid = true → e.dp.value = some (.str s) →
        e.translation_key.isSome = true →
        (e.dp.hmtype = .enum ∨ e.dp.hmtype = .string) →
        sensor_native_value e = some (.str s.toLower))
    ∧ (∀ (e : NumberEntity) (n : Int),
        e.dp.is_valid = true → e.dp.value = some n →
        number_native_value e = some (n * e.multiplier))
    ∧ (∀ (dp : SwitchDataPoint) (b : Bool) (r : Option RestoredState),
        dp.is_valid = true → dp.value = some (.bool b) →
        switch_is_on dp r = some b) := by
  refine ⟨?_, ?_, ?_, ?_⟩
  · intro e n hv hval hty
    by_cases hm : e.multiplier = 1
    · have hty2 : (e.dp.hmtype == ParameterType.enum
          || e.dp.hmtype == ParameterType.string) = false := by
        rcases hty with h | h <;> simp [h]
      simp [sensor_native_value, hv, hval, hm, hty2]
    · have hty1 : (e.dp.hmtype == ParameterType.float
          || e.dp.hmtype == ParameterType.integer) = true := by
        rcases hty with h | h <;> simp [h]
      simp [sensor_native_value, hv, hval, hm, hty1, pyMul]
  · intro e s hv hval htk hty
    have hty1 : (e.dp.hmtype == ParameterType.float
        || e.dp.hmtype == ParameterType.integer) = false := by
      rcases hty with h | h <;> simp [h]
    have hty2 : (e.dp.hmtype == ParameterType.enum
        || e.dp.hmtype == ParameterType.string) = true := by
      rcases hty with h | h <;> simp [h]
    simp [sensor_native_value, hv, hval, hty1, hty2, htk, pyLower]
  · intro e n hv hval
    simp [number_native_value, hv, hval]
  · intro dp b r hv hval
    cases b <;> simp [switch_is_on, hv, hval]

/-- C2 witness: concrete valid entities for each of the four transforms. -/
theorem C2_witness :
    sensor_native_value ⟨⟨true, some (.num 5), .integer⟩, 10, none, none⟩
        = some (.num 50)
    ∧ sensor_native_value ⟨⟨true, some (.str "AUTO"), .enum⟩, 1, some "mode", none⟩
        = some (.str "auto")
    ∧ number_native_value ⟨⟨true, some 7⟩, 3, none⟩ = some 21
    ∧ switch_is_on ⟨true, some (.bool true)⟩ none = some true := by
  refine ⟨?_, ?_, ?_, ?_⟩
  · have h := C2_valid_state_transforms.1
      ⟨⟨true, some (.num 5), .integer⟩, 10, none, none⟩ 5 rfl rfl (Or.inr rfl)
    simpa using h
  · have h := C2_valid_state_transforms.2.1
      ⟨⟨true, some (.str "AUTO"), .enum⟩, 1, some "mode", none⟩ "AUTO" rfl rfl rfl
      (Or.inl rfl)
    rw [h]
    simp [String.toLower, String.map_eq]
  · have h := C2_valid_state_transforms.2.2.1 ⟨⟨true, some 7⟩, 3, none⟩ 7 rfl rfl
    simpa using h
  · exact C2_valid_state_transforms.2.2.2 ⟨true, some (.bool true)⟩ true none rfl rfl

/-- C3: when the wrapped data point is invalid and a restored state exists
whose state string is neither "unknown" nor "unavailable", the exposed state
equals the value derived from the restored state: the restored string for
text, equality with the library LOCKED constant for lock, equality with
STATE_ON for switch, and the restored current-position attribute for cover. -/
theorem C3_restored_fallback_value (rs : RestoredState) (s : String)
    (hs : rs.state = some s) (hsu : s ≠ STATE_UNKNOWN)
    (hsa : s ≠ STATE_UNAVAILABLE) :
    (∀ dp : TextDataPoint, dp.is_valid = false →
        text_native_value dp (some rs) = some s)
    ∧ (∀ (lockStateLocked : String) (dp : LockDataPoint), dp.is_valid = false →
        lock_is_locked lockStateLocked dp (some rs) = some (s == lockStateLocked))
    ∧ (∀ dp : SwitchDataPoint, dp.is_valid = false →
        switch_is_on dp (some rs) = some (s == STATE_ON))
    ∧ (∀ dp : CoverDataPoint, dp.is_valid = false →
        cover_current_cover_position dp (some rs) = rs.attr_current_position) := by
  have hnn : state_not_in_unknown_unavailable (some s) = true := by
    simp [state_not_in_unknown_unavailable, hsu, hsa]
  refine ⟨?_, ?_, ?_, ?_⟩
  · intro dp hinv
    simp [text_native_value, hinv, is_restored, hs, hnn]
  · intro k dp hinv
    simp [lock_is_locked, hinv, is_restored, hs, hnn, opt_str_eq]
  · intro dp hinv
    simp [switch_is_on, hinv, is_restored, hs, hnn, opt_str_eq]
  · intro dp hinv
    simp [cover_current_cover_position, hinv, is_restored, hs]

/-- C3 witness: a concrete invalid data point with a usable restored state. -/
theorem C3_witness :
    text_native_value ⟨false, none⟩ (some ⟨some "hello", none, none⟩) = some "hello"
    ∧ switch_is_on ⟨false, none⟩ (some ⟨some "on", none, none⟩) = some true
    ∧ cover_current_cover_position ⟨false, none, none⟩
        (some ⟨some "open", some 40, none⟩) = some 40 := by
  refine ⟨?_, ?_, ?_⟩
  · exact (C3_restored_fallback_value ⟨some "hello", none, none⟩ "hello" rfl
      (by decide) (by decide)).1 ⟨false, none⟩ rfl
  · have h := (C3_restored_fallback_value ⟨some "on", none, none⟩ "on" rfl
      (by decide) (by decide)).2.2.1 ⟨false, none⟩ rfl
    simpa using h
  · exact (C3_restored_fallback_value ⟨some "open", some 40, none⟩ "open" rfl
      (by decide) (by decide)).2.2.2 ⟨false, none, none⟩ rfl

/-- C10: when the binary sensor data point is invalid and no usable restored
state exists (none, or its state is None/"unknown"/"unavailable"), is_on
returns the data point default, while the switch (like the other restore
entities) returns None in the same situation. -/
theorem C10_binary_sensor_default (dp : BinarySensorDataPoint)
    (r : Option RestoredState) (hinv : dp.is_valid = false)
    (hnouse : r = none ∨ ∃ rs, r = some rs ∧
      (rs.state = none ∨ rs.state = some STATE_UNKNOWN
        ∨ rs.state = some STATE_UNAVAILABLE)) :
    binary_sensor_is_on dp r = some dp.default
    ∧ ∀ sdp : SwitchDataPoint, sdp.is_valid = false → switch_is_on sdp r = none := by
  rcases hnouse with h | ⟨rs, hr, hst⟩
  · subst h
    constructor
    · simp [binary_sensor_is_on, hinv, is_restored]
    · intro sdp hsv
      simp [switch_is_on, hsv, is_restored]
  · subst hr
    rcases hst with h | h | h
    · constructor
      · simp [binary_sensor_is_on, hinv, is_restored, h]
      · intro sdp hsv
        simp [switch_is_on, hsv, is_restored, h]
    · constructor
      · simp [binary_sensor_is_on, hinv, is_restored, h,
          state_not_in_unknown_unavailable]
      · intro sdp hsv
        simp [switch_is_on, hsv, is_restored, h, state_not_in_unknown_unavailable]
    · constructor
      · simp [binary_sensor_is_on, hinv, is_restored, h,
          state_not_in_unknown_unavailable]
      · intro sdp hsv
        simp [switch_is_on, hsv, is_restored, h, state_not_in_unknown_unavailable]

/-- C10 witness: invalid binary sensor with a restored state "unknown". -/
theorem C10_witness :
    binary_sensor_is_on ⟨false, none, true⟩ (some ⟨some "unknown", none, none⟩)
        = some true
    ∧ switch_is_on ⟨false, none⟩ (some ⟨some "unknown", none, none⟩) = none := by
  have h := C10_binary_sensor_default ⟨false, none, true⟩
    (some ⟨some "unknown", none, none⟩) rfl
    (Or.inr ⟨⟨some "unknown", none, none⟩, rfl, Or.inr (Or.inl rfl)⟩)
  exact ⟨h.1, h.2 ⟨false, none⟩ rfl⟩

/-- C4: an MQTT message with JSON payload containing the field "v" with value
42 results in exactly one forwarded state-path update per registered control
unit, carrying value 42 and the message topic; an empty JSON object results in
zero forwarded updates. -/
theorem C4_payload_forwarding (centrals : List String) (topic : String)
    (hnd : centrals.Nodup) :
    ∃ events,
      on_mqtt_msg_receive centrals topic (some (.obj [("v", .num 42)]))
          = .ok events
      ∧ events = centrals.map (fun c => ⟨c, topic, .num 42⟩)
      ∧ (∀ c ∈ centrals, (events.filter (fun e => e.central == c)).length = 1)
      ∧ (∀ e ∈ events, e.value = .num 42 ∧ e.state_path = topic)
      ∧ on_mqtt_msg_receive centrals topic (some (.obj [])) = .ok [] := by
  refine ⟨centrals.map (fun c => ⟨c, topic, .num 42⟩), rfl, rfl, ?_, ?_, rfl⟩
  · intro c hc
    rw [List.filter_map, List.length_map]
    have h2 : ((fun e : PathEvent => e.central == c)
        ∘ (fun c2 => PathEvent.mk c2 topic (.num 42))) = (fun c2 => c2 == c) := rfl
    rw [h2]
    have h3 : (centrals.filter (fun c2 => c2 == c)).length = centrals.count c := by
      rw [List.count, List.countP_eq_length_filter]
    rw [h3]
    exact List.count_eq_one_of_mem hnd hc
  · intro e he
    obtain ⟨c, _, hc⟩ := List.mem_map.mp he
    rw [← hc]
    exact ⟨rfl, rfl⟩

/-- C4 witness: two registered control units. -/
theorem C4_witness :
    ∃ events,
      on_mqtt_msg_receive ["ccu1", "ccu2"] "device/status/x"
          (some (.obj [("v", .num 42)])) = .ok events
      ∧ events = [⟨"ccu1", "device/status/x", .num 42⟩,
          ⟨"ccu2", "device/status/x", .num 42⟩]
      ∧ (events.filter (fun e => e.central == "ccu1")).length = 1
      ∧ on_mqtt_msg_receive ["ccu1", "ccu2"] "device/status/x"
          (some (.obj [])) = .ok [] := by
  obtain ⟨events, h1, h2, h3, _, h5⟩ :=
    C4_payload_forwarding ["ccu1", "ccu2"] "device/status/x" (by decide)
  exact ⟨events, h1, by rw [h2]; rfl, h3 "ccu1" (by decide), h5⟩

/-- C6 counterexample: the payload "[]" is well-formed JSON whose parsed value
lacks the field "v", yet the handler raises (AttributeError from `.get` on a
non-dict) instead of silently dropping the message. -/
theorem C6_counterexample :
    on_mqtt_msg_receive ["ccu"] "device/status/x" (some (.arr []))
      = .error .attributeError := rfl

/-- C6 amended: a payload whose parsed JSON is an object lacking the field "v"
(or mapping it to null) is silently dropped with no forwarded update; a
payload that does not parse, or parses to a non-object, makes the handler
raise and forwards nothing. -/
theorem C6_amended_malformed_payloads (centrals : List String) (topic : String)
    (kvs : List (String × Json))
    (hv : jsonGet kvs "v" = none ∨ jsonGet kvs "v" = some .null) :
    on_mqtt_msg_receive centrals topic (some (.obj kvs)) = .ok []
    ∧ on_mqtt_msg_receive centrals topic none = .error .jsonDecodeError
    ∧ ∀ j : Json, (∀ kvs2, j ≠ .obj kvs2) →
        on_mqtt_msg_receive centrals topic (some j) = .error .attributeError := by
  refine ⟨?_, rfl, ?_⟩
  · rcases hv with h | h <;> simp [on_mqtt_msg_receive, h]
  · intro j hj
    cases j with
    | null => rfl
    | bool b => rfl
    | num n => rfl
    | str s => rfl
    | arr xs => rfl
    | obj kvs2 => exact absurd rfl (hj kvs2)

/-- C6 witness: an object payload without "v" is dropped; a string payload
raises. -/
theorem C6_witness :
    on_mqtt_msg_receive ["ccu"] "device/status/x" (some (.obj [("x", .num 1)]))
        = .ok []
    ∧ on_mqtt_msg_receive ["ccu"] "device/status/x" (some (.str "hello"))
        = .error .attributeError := by
  have h := C6_amended_malformed_payloads ["ccu"] "device/status/x"
    [("x", .num 1)] (Or.inl rfl)
  exact ⟨h.1, h.2.2 (.str "hello") (fun kvs2 hcon => Json.noConfusion hcon)⟩

/-- C5 (code slip): with MQTT configured and a fresh consumer, the trace
subscribe("ccu"), unsubscribe("ccu"), subscribe("ccu") issues one subscription
for the first 0→1 registrant transition and one unsubscription for the 1→0
transition, but the final subscribe — again a 0→1 transition — issues no
subscription: `_unsubscribe` never resets `_sub_state` to None, so the
`_sub_state is None` guard in `_subscribe` blocks every later subscription. -/
theorem C5_resubscription_never_happens :
    (consumer_run true consumer_init [.sub "ccu"]).2 = [.subscribeTopics]
    ∧ (consumer_run true consumer_init [.sub "ccu", .unsub "ccu"]).2
        = [.subscribeTopics, .unsubscribeTopics]
    ∧ (consumer_run true consumer_init [.sub "ccu", .unsub "ccu"]).1.centrals = []
    ∧ (consumer_step true
        (consumer_run true consumer_init [.sub "ccu", .unsub "ccu"]).1
        (.sub "ccu")).1.centrals = ["ccu"]
    ∧ (consumer_step true
        (consumer_run true consumer_init [.sub "ccu", .unsub "ccu"]).1
        (.sub "ccu")).2 = [] :=
  ⟨rfl, rfl, rfl, rfl, rfl⟩

/-- Helper for C7: when the device is already absent from the registry, every
further removal report only force-removes its entity and changes nothing
else — and in particular raises no error. -/
theorem process_removed_device_absent (d : String) :
    ∀ (es : List EntityRef) (st : RemovalState),
      (∀ e ∈ es, e.registry_entry = some ⟨some d⟩) →
      d ∉ st.registry_devices →
      process_device_removed st es =
        .ok { st with force_removed := st.force_removed ++ es.map EntityRef.name } := by
  intro es
  induction es with
  | nil =>
      intro st hes hd
      simp [process_device_removed]
  | cons e rest ih =>
      intro st hes hd
      have he : e.registry_entry = some ⟨some d⟩ := hes e (by simp)
      have hrest : ∀ e2 ∈ rest, e2.registry_entry = some ⟨some d⟩ :=
        fun e2 h2 => hes e2 (by simp [h2])
      have hstep : async_device_removed st e =
          .ok { st with force_removed := st.force_removed ++ [e.name] } := by
        by_cases hde : (d == "") = true
        · simp [async_device_removed, he, hde]
        · simp [async_device_removed, he, hde, hd]
      rw [process_device_removed, hstep]
      have hrec := ih { st with force_removed := st.force_removed ++ [e.name] }
        hrest hd
      rw [show (match (Except.ok { st with
            force_removed := st.force_removed ++ [e.name] } :
              Except RegistryError RemovalState) with
          | Except.ok st1 => process_device_removed st1 rest
          | Except.error err => Except.error err)
        = process_device_removed { st with
            force_removed := st.force_removed ++ [e.name] } rest from rfl]
      rw [hrec]
      simp

/-- C7: when several entities bound to the same device report device removal
(one after the other on the single event loop), each reporting entity is
force-removed, the device registry entry is removed exactly once, and a report
arriving when the registry entry is already absent is a no-op rather than an
error. -/
theorem C7_device_removed_once (es : List EntityRef) (st0 : RemovalState)
    (d : String) (hd : d ≠ "")
    (hes : ∀ e ∈ es, e.registry_entry = some ⟨some d⟩)
    (hnd : st0.registry_devices.Nodup) :
    ∃ st1, process_device_removed st0 es = .ok st1
      ∧ st1.force_removed = st0.force_removed ++ es.map EntityRef.name
      ∧ st1.remove_device_calls = st0.remove_device_calls ++
          (if d ∈ st0.registry_devices ∧ es ≠ [] then [d] else []) := by
  cases es with
  | nil =>
      refine ⟨st0, ?_, ?_, ?_⟩ <;> simp [process_device_removed]
  | cons e rest =>
      have he : e.registry_entry = some ⟨some d⟩ := hes e (by simp)
      have hrest : ∀ e2 ∈ rest, e2.registry_entry = some ⟨some d⟩ :=
        fun e2 h2 => hes e2 (by simp [h2])
      by_cases hmem : d ∈ st0.registry_devices
      · have hstep : async_device_removed st0 e =
            .ok { st0 with
              registry_devices := st0.registry_devices.erase d,
              force_removed := st0.force_removed ++ [e.name],
              remove_device_calls := st0.remove_device_calls ++ [d] } := by
          simp [async_device_removed, he, hd, registry_remove_device, hmem]
        have hout : d ∉ st0.registry_devices.erase d := hnd.not_mem_erase
        refine ⟨{ registry_devices := st0.registry_devices.erase d,
                  force_removed := (st0.force_removed ++ [e.name])
                    ++ rest.map EntityRef.name,
                  remove_device_calls := st0.remove_device_calls ++ [d] },
          ?_, ?_, ?_⟩
        · rw [process_device_removed, hstep]
          exact process_removed_device_absent d rest
            { registry_devices := st0.registry_devices.erase d,
              force_removed := st0.force_removed ++ [e.name],
              remove_device_calls := st0.remove_device_calls ++ [d] } hrest hout
        · simp
        · simp [hmem]
      · refine ⟨{ st0 with
                    force_removed := st0.force_removed
                      ++ (e :: rest).map EntityRef.name },
          process_removed_device_absent d (e :: rest) st0 hes hmem, ?_, ?_⟩
        · rfl
        · simp [hmem]

/-- C7 witness: two entities bound to device "dev", present in the registry. -/
theorem C7_witness :
    ∃ st1, process_device_removed ⟨["dev"], [], []⟩
        [⟨"e1", some ⟨some "dev"⟩⟩, ⟨"e2", some ⟨some "dev"⟩⟩] = .ok st1
      ∧ st1.force_removed = ["e1", "e2"]
      ∧ st1.remove_device_calls = ["dev"] := by
  obtain ⟨st1, h1, h2, h3⟩ := C7_device_removed_once
    [⟨"e1", some ⟨some "dev"⟩⟩, ⟨"e2", some ⟨some "dev"⟩⟩]
    ⟨["dev"], [], []⟩ "dev" (by decide) (by decide) (by decide)
  refine ⟨st1, h1, ?_, ?_⟩
  · rw [h2]; rfl
  · rw [h3]; rfl

/-- C8: the combined-position service call with position 50 and tilt 30
(accepted by the registered service schema) awaits exactly one set_position
call carrying both values and the parameter collector, and that call precedes
the collector send_data with the callback confirmation wait. -/
theorem C8_combined_position_single_call (wait : Option Int)
    (_hok : combined_position_schema_ok 50 (some 30) wait = true) :
    ((async_set_cover_combined_position 50 (some 30) wait).filter
        is_set_position_call) = [.set_position 50 (some 30) true]
    ∧ ∃ i j : Nat, i < j
      ∧ (async_set_cover_combined_position 50 (some 30) wait)[i]?
          = some (CoverCall.set_position 50 (some 30) true)
      ∧ (async_set_cover_combined_position 50 (some 30) wait)[j]?
          = some (CoverCall.collector_send_data wait) :=
  ⟨rfl, ⟨0, 1, Nat.zero_lt_one, rfl, rfl⟩⟩

/-- C8 witness: no wait_for_callback, schema accepted. -/
theorem C8_witness :
    combined_position_schema_ok 50 (some 30) none = true
    ∧ ((async_set_cover_combined_position 50 (some 30) none).filter
        is_set_position_call) = [.set_position 50 (some 30) true] :=
  ⟨by decide, (C8_combined_position_single_call none (by decide)).1⟩

/-- C9: every displayed select option is the lowercasing of a library value,
async_select_option forwards the uppercased option string to send_value, and
for every option in the options list lowercasing the uppercased sent string
yields the displayed option again. -/
theorem C9_select_case_round_trip (dp : SelectDataPoint) :
    (∀ opt ∈ select_options dp, ∃ v ∈ dp.values.getD [], opt = v.toLower)
    ∧ (∀ option, select_option_sent option = option.toUpper)
    ∧ (∀ opt ∈ select_options dp, (select_option_sent opt).toLower = opt) := by
  have hmem : ∀ opt ∈ select_options dp, ∃ v ∈ dp.values.getD [], opt = v.toLower := by
    intro opt hopt
    cases hv : dp.values with
    | none => rw [select_options, hv] at hopt; simp at hopt
    | some vs =>
        rw [select_options, hv] at hopt
        by_cases hemp : vs.isEmpty
        · simp [hemp] at hopt
        · simp only [if_neg hemp, List.mem_map] at hopt
          obtain ⟨v, hvm, hvl⟩ := hopt
          exact ⟨v, by simp [hv, hvm], hvl.symm⟩
  refine ⟨hmem, fun _ => rfl, ?_⟩
  · intro opt hopt
    obtain ⟨v, _, hvl⟩ := hmem opt hopt
    rw [hvl, select_option_sent]
    exact string_toLower_toUpper_toLower v

/-- C9 witness: a select data point with the library values AUTO and MANU. -/
theorem C9_witness :
    (select_option_sent "auto").toLower = "auto"
    ∧ select_options ⟨true, some "AUTO", some ["AUTO", "MANU"]⟩ = ["auto", "manu"] := by
  have hopts : select_options ⟨true, some "AUTO", some ["AUTO", "MANU"]⟩
      = ["auto", "manu"] := by
    simp [select_options, String.toLower, String.map_eq]
  refine ⟨?_, hopts⟩
  exact (C9_select_case_round_trip ⟨true, some "AUTO", some ["AUTO", "MANU"]⟩).2.2
    "auto" (by rw [hopts]; simp)

end HmipLocal
